import Mathlib

/-!
Shallow embedding of the GevTown study-bot repository's conversation-history
store and its callers.

* `save_chat`, `get_chat_history` model `src/database.py`.  The MongoDB
  collection is modelled as a `Store`: an availability flag (the collection
  handle being `None` after a failed connection), the list of inserted
  documents in insertion order, and a clock supplying `datetime.now()`
  timestamps (strictly increasing across insertions in one process).
* `buildContext` and `chat` model the per-turn flow of `src/main.py`'s
  `/chat` endpoint (the same logic as `chat_with_memory` in
  `src/chatbot_with_memory.py`); the external Gemini call is a function
  parameter returning `Except`.
* `get_history` models the `/history` endpoint of `src/main.py`.
-/

/-- One document of the `chat_history` collection (`chat_data` in
`save_chat`, src/database.py). -/
structure ChatTurn where
  user_id : String
  user_message : String
  bot_response : String
  timestamp : Nat
deriving Repr, DecidableEq

/-- The MongoDB backing store as seen by `src/database.py`:
`available = false` models `chats_collection is None` (connection failure);
`turns` is the collection's contents in insertion order; `clock` is the
next `datetime.now()` value handed to an insertion. -/
structure Store where
  available : Bool
  turns : List ChatTurn
  clock : Nat
deriving Repr, DecidableEq

/-- A store with no documents, as after a fresh successful connection. -/
def Store.empty (c : Nat) : Store := ⟨true, [], c⟩

/-- `save_chat(user_id, user_message, bot_response)` from src/database.py:
returns `False` without writing when the collection handle is `None`,
otherwise inserts one document stamped with the current time and returns
`True`.  The pair is (state after the call, returned boolean). -/
def save_chat (s : Store) (user_id user_message bot_response : String) :
    Store × Bool :=
  if s.available = false then
    (s, false)
  else
    (⟨s.available,
      s.turns ++ [⟨user_id, user_message, bot_response, s.clock⟩],
      s.clock + 1⟩, true)

/-- Stable insertion (descending on `timestamp`) used to model MongoDB's
`.sort("timestamp", -1)`: an element inserted later in the fold lands after
earlier elements with an equal or larger timestamp. -/
def insertDesc (x : ChatTurn) : List ChatTurn → List ChatTurn
  | [] => [x]
  | y :: ys =>
      if y.timestamp < x.timestamp then x :: y :: ys
      else y :: insertDesc x ys

/-- MongoDB's `.sort("timestamp", -1)` on a query result. -/
def sortDesc (l : List ChatTurn) : List ChatTurn :=
  l.foldl (fun acc x => insertDesc x acc) []

/-- The two formatted lines one stored turn contributes inside the loop of
`get_chat_history`. -/
def formatTurn (c : ChatTurn) : List String :=
  ["User: " ++ c.user_message, "Assistant: " ++ c.bot_response]

/-- `get_chat_history(user_id, limit=5)` from src/database.py: returns `""`
when the collection handle is `None`; otherwise filters the collection on
`user_id`, sorts by `timestamp` descending, keeps `limit` documents,
iterates over them in reversed (chronological) order producing the lines
`User: <user_message>` / `Assistant: <bot_response>`, and joins the lines
with `"\n"`. -/
def get_chat_history (s : Store) (user_id : String) (limit : Nat := 5) :
    String :=
  if s.available = false then ""
  else
    let found := s.turns.filter (fun t => t.user_id == user_id)
    let sorted := sortDesc found
    let limited := sorted.take limit
    let messages := (limited.reverse).flatMap formatTurn
    String.intercalate "\n" messages

/-- `get_chat_history` as a state transformer: the function only issues
`find`/`sort`/`limit` queries against the collection, so the store it
leaves behind is the store it was given.  This is the form its callers
thread state through. -/
def get_chat_history_st (s : Store) (user_id : String) (limit : Nat := 5) :
    Store × String :=
  (s, get_chat_history s user_id limit)

/-- The body of `src/main.py`'s `ChatResponse` pydantic model. -/
structure ChatResponse where
  user_id : String
  user_message : String
  bot_response : String
  status : String
deriving Repr, DecidableEq

/-- The body of `src/main.py`'s `HistoryResponse` pydantic model. -/
structure HistoryResponse where
  user_id : String
  history : String
  status : String
deriving Repr, DecidableEq

/-- Prompt assembly shared by `src/main.py` (`chat`, lines building
`context`) and `src/chatbot_with_memory.py`: a non-empty history string
(Python truthiness of `chat_history`) is wrapped as
`"Previous conversation:\n" + history + "\n\nCurrent question: " + message`,
an empty history leaves the message unchanged. -/
def buildContext (chat_history message : String) : String :=
  if chat_history ≠ "" then
    "Previous conversation:\n" ++ chat_history ++ "\n\nCurrent question: "
      ++ message
  else
    message

/-- The `/chat` endpoint of `src/main.py` (`chat`).  The external pieces
are parameters: `api_key` models `os.getenv("GOOGLE_API_KEY")` and `llm`
models `llm.invoke` on the assembled context, returning either the model's
text or a raised exception's message.  The result pairs the store state
after the request with either the HTTP 500 detail string (`Except.error`)
or the `ChatResponse` returned on success.  Mirrors the source order:
key check, history fetch, context build, model call, `save_chat`,
response construction; any failure propagates out of the `try` with the
store untouched past the point of failure. -/
def chat (api_key : Option String) (llm : String → Except String String)
    (s : Store) (user_id message : String) :
    Store × Except String ChatResponse :=
  match api_key with
  | none => (s, Except.error "Google API key not found")
  | some _ =>
    let hist := get_chat_history_st s user_id
    let context := buildContext hist.2 message
    match llm context with
    | Except.error e => (hist.1, Except.error e)
    | Except.ok bot_response =>
      ((save_chat hist.1 user_id message bot_response).1,
        Except.ok ⟨user_id, message, bot_response, "success"⟩)

/-- The `/history` endpoint of `src/main.py` (`get_history`): fetches the
formatted history and substitutes the sentinel when the string is falsy
(empty). -/
def get_history (s : Store) (user_id : String) (limit : Nat := 5) :
    HistoryResponse :=
  let history := get_chat_history s user_id limit
  ⟨user_id, if history ≠ "" then history else "No chat history found",
    "success"⟩

/-! ### Helper lemmas -/

/-- Inserting an element whose timestamp exceeds the head of the
accumulator simply prepends it. -/
lemma insertDesc_eq_cons (x : ChatTurn) (acc : List ChatTurn)
    (h : ∀ a, acc.head? = some a → a.timestamp < x.timestamp) :
    insertDesc x acc = x :: acc := by
  cases acc with
  | nil => rfl
  | cons a t => simp [insertDesc, h a rfl]

/-- Folding `insertDesc` over a strictly time-ascending list, starting from
an accumulator dominated by the list, reverses the list onto the
accumulator. -/
lemma foldl_insertDesc_of_chain (l : List ChatTurn) :
    ∀ acc : List ChatTurn,
    List.Chain' (fun a b => a.timestamp < b.timestamp) l →
    (∀ a, acc.head? = some a → ∀ b, l.head? = some b →
      a.timestamp < b.timestamp) →
    List.foldl (fun acc x => insertDesc x acc) acc l = l.reverse ++ acc := by
  induction l with
  | nil => intro acc _ _; simp
  | cons x xs ih =>
    intro acc hl hacc
    have hstep : insertDesc x acc = x :: acc :=
      insertDesc_eq_cons x acc (fun a ha => hacc a ha x rfl)
    rw [List.foldl_cons, hstep, ih (x :: acc) hl.tail]
    · simp
    · intro a ha b hb
      cases xs with
      | nil => simp at hb
      | cons y ys =>
        simp at ha hb
        subst ha; subst hb
        exact (List.chain'_cons.mp hl).1

/-- On a strictly time-ascending list — true of every per-user query result
in a reachable store, whose timestamps grow with each insertion — the
descending sort is exactly list reversal. -/
lemma sortDesc_eq_reverse (l : List ChatTurn)
    (h : List.Chain' (fun a b => a.timestamp < b.timestamp) l) :
    sortDesc l = l.reverse := by
  unfold sortDesc
  rw [foldl_insertDesc_of_chain l [] h (by simp)]
  simp

/-- `get_chat_history` reads only the availability flag and the documents
matching the queried user. -/
lemma get_chat_history_congr (s₁ s₂ : Store) (u : String) (limit : Nat)
    (hav : s₁.available = s₂.available)
    (hfil : s₁.turns.filter (fun t => t.user_id == u) =
      s₂.turns.filter (fun t => t.user_id == u)) :
    get_chat_history s₁ u limit = get_chat_history s₂ u limit := by
  unfold get_chat_history
  rw [hav, hfil]

/-! ### Claims -/

/-- C1: starting from an empty store, recording a first turn and then a
second for the same user makes `get_chat_history` with the default limit
return the two turns as the four lines
`User: <first message>`, `Assistant: <first response>`,
`User: <second message>`, `Assistant: <second response>`, joined by single
newlines, oldest turn first, with no trailing separator.  The claim's
concrete instance is messages Q1/A1 then Q2/A2. -/
theorem c1_two_records_transcript (u m1 a1 m2 a2 : String) (c : Nat) :
    get_chat_history
      (save_chat (save_chat (Store.empty c) u m1 a1).1 u m2 a2).1 u 5 =
    "User: " ++ m1 ++ "\nAssistant: " ++ a1 ++ "\nUser: " ++ m2
      ++ "\nAssistant: " ++ a2 := by
  simp [Store.empty, save_chat, get_chat_history, sortDesc, insertDesc,
    formatTurn, String.intercalate, String.intercalate.go, String.append_assoc]
  apply String.ext
  simp [String.data_append]

/-- C2: when the backing store is unavailable, `save_chat` returns `false`
having written nothing (the store state is returned unchanged) and
`get_chat_history` returns the empty string, for every input; both are
total functions, so neither raises. -/
theorem c2_unavailable_degrades (s : Store) (u m r v : String) (limit : Nat)
    (h : s.available = false) :
    save_chat s u m r = (s, false) ∧ get_chat_history s v limit = "" := by
  simp [save_chat, get_chat_history, h]

/-- C2 witness: a concrete unavailable store. -/
theorem c2_unavailable_degrades_witness :
    (⟨false, [], 0⟩ : Store).available = false ∧
    (save_chat ⟨false, [], 0⟩ "izza" "Q" "A" = (⟨false, [], 0⟩, false) ∧
      get_chat_history ⟨false, [], 0⟩ "izza" 5 = "") :=
  ⟨rfl, c2_unavailable_degrades ⟨false, [], 0⟩ "izza" "Q" "A" "izza" 5 rfl⟩

/-- C3: in the `/chat` flow, if the external model call fails on the
assembled context, the endpoint returns the error to the caller and the
store state is exactly the input state: no record is written and the one
model invocation is the only one made. -/
theorem c3_model_failure_aborts (key : String)
    (llm : String → Except String String) (s : Store) (u m e : String)
    (h : llm (buildContext (get_chat_history s u 5) m) = Except.error e) :
    chat (some key) llm s u m = (s, Except.error e) := by
  simp [chat, get_chat_history_st, h]

/-- C3 witness: a model stub that always fails leaves a concrete store
untouched and surfaces the error. -/
theorem c3_model_failure_aborts_witness :
    (fun _ : String => (Except.error "quota" : Except String String))
        (buildContext (get_chat_history (Store.empty 0) "izza" 5) "hi") =
      Except.error "quota" ∧
    chat (some "k") (fun _ => Except.error "quota") (Store.empty 0)
        "izza" "hi" =
      (Store.empty 0, Except.error "quota") :=
  ⟨rfl, c3_model_failure_aborts "k" (fun _ => Except.error "quota")
    (Store.empty 0) "izza" "hi" "quota" rfl⟩

/-- C4: prompt assembly over the fetched history — an empty history leaves
the message unchanged, a non-empty history yields
`Previous conversation:` newline, the history, blank line,
`Current question: ` and the message. -/
theorem c4_prompt_assembly (s : Store) (u m : String) :
    (get_chat_history s u 5 = "" →
      buildContext (get_chat_history s u 5) m = m) ∧
    (get_chat_history s u 5 ≠ "" →
      buildContext (get_chat_history s u 5) m =
        "Previous conversation:\n" ++ get_chat_history s u 5
          ++ "\n\nCurrent question: " ++ m) := by
  constructor
  · intro h
    simp [buildContext, h]
  · intro h
    simp [buildContext, h]

/-- C4 witness: both branches at concrete stores. -/
theorem c4_prompt_assembly_witness :
    (get_chat_history (Store.empty 0) "izza" 5 = "" ∧
      buildContext (get_chat_history (Store.empty 0) "izza" 5) "hi" = "hi") ∧
    (get_chat_history ⟨true, [⟨"izza", "Q", "A", 0⟩], 1⟩ "izza" 5 ≠ "" ∧
      buildContext
          (get_chat_history ⟨true, [⟨"izza", "Q", "A", 0⟩], 1⟩ "izza" 5)
          "hi" =
        "Previous conversation:\n"
          ++ get_chat_history ⟨true, [⟨"izza", "Q", "A", 0⟩], 1⟩ "izza" 5
          ++ "\n\nCurrent question: " ++ "hi") :=
  ⟨⟨rfl, (c4_prompt_assembly (Store.empty 0) "izza" "hi").1 rfl⟩,
    ⟨by decide,
      (c4_prompt_assembly ⟨true, [⟨"izza", "Q", "A", 0⟩], 1⟩ "izza" "hi").2
        (by decide)⟩⟩

/-- C5: on an available store whose per-user query result is strictly
time-ordered (as every reachable store is, timestamps increasing with each
insertion), `get_chat_history` renders exactly the `limit` most-recent
turns for the user — the filtered list sorted by timestamp descending,
truncated to `limit`, then reversed to ascending (oldest first) — as the
chronological transcript. -/
theorem c5_limit_most_recent (s : Store) (u : String) (limit : Nat)
    (hav : s.available = true)
    (hsort : (s.turns.filter (fun t => t.user_id == u)).Pairwise
      (fun a b => a.timestamp < b.timestamp)) :
    get_chat_history s u limit =
      String.intercalate "\n"
        (((((s.turns.filter (fun t => t.user_id == u)).reverse).take
          limit).reverse).flatMap formatTurn) := by
  simp only [get_chat_history, hav]
  rw [sortDesc_eq_reverse _ hsort.chain']
  simp

/-- C5 witness: after recording Q1/A1 then Q2/A2 for one user starting from
an empty store, the limit-1 history is exactly the most recent turn,
`User: Q2` newline `Assistant: A2`. -/
theorem c5_limit_most_recent_witness :
    ((save_chat (save_chat (Store.empty 0) "izza" "Q1" "A1").1
        "izza" "Q2" "A2").1.turns.filter
      (fun t => t.user_id == "izza")).Pairwise
        (fun a b => a.timestamp < b.timestamp) ∧
    get_chat_history
        (save_chat (save_chat (Store.empty 0) "izza" "Q1" "A1").1
          "izza" "Q2" "A2").1 "izza" 1 =
      "User: Q2\nAssistant: A2" :=
  ⟨by decide,
    (c5_limit_most_recent
      (save_chat (save_chat (Store.empty 0) "izza" "Q1" "A1").1
        "izza" "Q2" "A2").1 "izza" 1 (by decide) (by decide)).trans
      (by decide)⟩

/-- C6: a user with zero stored turns (the per-user query result is empty)
gets the empty string from `get_chat_history`, at every limit and whether
or not the store is available. -/
theorem c6_no_turns_empty_history (s : Store) (u : String) (limit : Nat)
    (h : s.turns.filter (fun t => t.user_id == u) = []) :
    get_chat_history s u limit = "" := by
  cases hav : s.available <;>
    simp [get_chat_history, h, hav, sortDesc, String.intercalate]

/-- C6 witness: a store holding only another user's turn yields the empty
string. -/
theorem c6_no_turns_empty_history_witness :
    ((⟨true, [⟨"other", "Q", "A", 0⟩], 1⟩ : Store).turns.filter
      (fun t => t.user_id == "izza")) = [] ∧
    get_chat_history ⟨true, [⟨"other", "Q", "A", 0⟩], 1⟩ "izza" 5 = "" :=
  ⟨by decide,
    c6_no_turns_empty_history ⟨true, [⟨"other", "Q", "A", 0⟩], 1⟩ "izza" 5
      (by decide)⟩

/-- C7: the `/history` endpoint returns the formatted history with status
`success` when the history is non-empty, and the sentinel
`No chat history found` with status `success` when it is empty. -/
theorem c7_history_endpoint (s : Store) (u : String) (limit : Nat) :
    (get_chat_history s u limit ≠ "" →
      get_history s u limit =
        ⟨u, get_chat_history s u limit, "success"⟩) ∧
    (get_chat_history s u limit = "" →
      get_history s u limit = ⟨u, "No chat history found", "success"⟩) := by
  constructor
  · intro h
    simp [get_history, h]
  · intro h
    simp [get_history, h]

/-- C7 witness: both branches at concrete stores. -/
theorem c7_history_endpoint_witness :
    (get_chat_history ⟨true, [⟨"izza", "Q", "A", 0⟩], 1⟩ "izza" 5 ≠ "" ∧
      get_history ⟨true, [⟨"izza", "Q", "A", 0⟩], 1⟩ "izza" 5 =
        ⟨"izza", get_chat_history ⟨true, [⟨"izza", "Q", "A", 0⟩], 1⟩
          "izza" 5, "success"⟩) ∧
    (get_chat_history (Store.empty 0) "izza" 5 = "" ∧
      get_history (Store.empty 0) "izza" 5 =
        ⟨"izza", "No chat history found", "success"⟩) :=
  ⟨⟨by decide,
      (c7_history_endpoint ⟨true, [⟨"izza", "Q", "A", 0⟩], 1⟩ "izza" 5).1
        (by decide)⟩,
    ⟨rfl, (c7_history_endpoint (Store.empty 0) "izza" 5).2 rfl⟩⟩

/-- C8: per-user noninterference — `get_chat_history` for user `u` is
determined by availability together with the documents whose `user_id` is
`u`: two stores agreeing there agree on the result, and recording a turn
for a different user `v` leaves the result for `u` unchanged. -/
theorem c8_per_user_noninterference :
    (∀ (s₁ s₂ : Store) (u : String) (limit : Nat),
      s₁.available = s₂.available →
      s₁.turns.filter (fun t => t.user_id == u) =
        s₂.turns.filter (fun t => t.user_id == u) →
      get_chat_history s₁ u limit = get_chat_history s₂ u limit) ∧
    (∀ (s : Store) (v m r u : String) (limit : Nat), v ≠ u →
      get_chat_history (save_chat s v m r).1 u limit =
        get_chat_history s u limit) := by
  constructor
  · exact fun s₁ s₂ u limit hav hfil =>
      get_chat_history_congr s₁ s₂ u limit hav hfil
  · intro s v m r u limit hvu
    apply get_chat_history_congr
    · by_cases hav : s.available = false <;> simp [save_chat, hav]
    · by_cases hav : s.available = false
      · simp [save_chat, hav]
      · simp [save_chat, hav, List.filter_append, hvu]

/-- C8 witness: dropping another user's document does not change the
result, and recording for another user does not change it either. -/
theorem c8_per_user_noninterference_witness :
    get_chat_history ⟨true, [⟨"other", "X", "Y", 0⟩, ⟨"izza", "Q", "A", 1⟩],
        2⟩ "izza" 5 =
      get_chat_history ⟨true, [⟨"izza", "Q", "A", 1⟩], 2⟩ "izza" 5 ∧
    get_chat_history
        (save_chat ⟨true, [⟨"izza", "Q", "A", 1⟩], 2⟩ "other" "m" "r").1
        "izza" 5 =
      get_chat_history ⟨true, [⟨"izza", "Q", "A", 1⟩], 2⟩ "izza" 5 :=
  ⟨c8_per_user_noninterference.1
      ⟨true, [⟨"other", "X", "Y", 0⟩, ⟨"izza", "Q", "A", 1⟩], 2⟩
      ⟨true, [⟨"izza", "Q", "A", 1⟩], 2⟩ "izza" 5 rfl (by decide),
    c8_per_user_noninterference.2 ⟨true, [⟨"izza", "Q", "A", 1⟩], 2⟩
      "other" "m" "r" "izza" 5 (by decide)⟩

/-- C9: `get_chat_history` is read-only — as a state transformer it
returns the store it was given, unchanged, alongside the formatted
string. -/
theorem c9_history_read_only (s : Store) (u : String) (limit : Nat) :
    (get_chat_history_st s u limit).1 = s ∧
    (get_chat_history_st s u limit).2 = get_chat_history s u limit :=
  ⟨rfl, rfl⟩

/-- C10: on a successful model call the `/chat` endpoint's response echoes
the request — its `user_id` is the request's `user_id`, its `user_message`
is the request's message, and its status is `success`. -/
theorem c10_chat_echoes_request (key : String)
    (llm : String → Except String String) (s : Store) (u m r : String)
    (h : llm (buildContext (get_chat_history s u 5) m) = Except.ok r) :
    (chat (some key) llm s u m).2 =
      Except.ok ⟨u, m, r, "success"⟩ := by
  simp [chat, get_chat_history_st, h]

/-- C10 witness: a model stub returning a fixed answer produces the echoed
response at a concrete request. -/
theorem c10_chat_echoes_request_witness :
    (fun _ : String => (Except.ok "ans" : Except String String))
        (buildContext (get_chat_history (Store.empty 0) "izza" 5) "hi") =
      Except.ok "ans" ∧
    (chat (some "k") (fun _ => Except.ok "ans") (Store.empty 0)
        "izza" "hi").2 =
      Except.ok ⟨"izza", "hi", "ans", "success"⟩ :=
  ⟨rfl, c10_chat_echoes_request "k" (fun _ => Except.ok "ans")
    (Store.empty 0) "izza" "hi" "ans" rfl⟩
